import Mathlib

/-!
Verification of the LawFinder statute-XML parser
(`src/backend/src/parsers/xml_parser.py` with the entity model of
`src/backend/src/models/law.py`).

The XML document tree is embedded as the inductive `Elem` (tag, attributes,
text, children), mirroring `xml.etree.ElementTree.Element` restricted to the
operations the parser uses (`get`, `find`, `findall`, `.text`).  Python
exceptions are embedded as `Except PyError`: `int(...)` failures become
`PyError.valueError`, and attribute access on `None` (the missing-`LawBody`
path) becomes `PyError.attributeError`.  Each `parse_*` definition below is a
line-by-line translation of the equally named method of `LawXMLParser`.
-/

/-- An XML element: tag name, attribute list, text content, child elements.
Embeds `xml.etree.ElementTree.Element` as the parser uses it. -/
inductive Elem : Type where
  | mk : String → List (String × String) → Option String → List Elem → Elem

def Elem.tag : Elem → String
  | .mk t _ _ _ => t

def Elem.attrs : Elem → List (String × String)
  | .mk _ a _ _ => a

def Elem.text : Elem → Option String
  | .mk _ _ tx _ => tx

def Elem.children : Elem → List Elem
  | .mk _ _ _ cs => cs

/-- `element.get(key)` — attribute lookup returning `None` when absent. -/
def Elem.getAttr (e : Elem) (k : String) : Option String :=
  ((e.attrs).find? (fun kv => kv.fst == k)).map (fun kv => kv.snd)

/-- `element.get(key, default)` — attribute lookup with a default. -/
def Elem.getAttrD (e : Elem) (k d : String) : String :=
  (e.getAttr k).getD d

/-- `element.findall(tag)` — all direct children with the given tag,
in document order. -/
def Elem.findall (e : Elem) (t : String) : List Elem :=
  e.children.filter (fun c => c.tag == t)

/-- `element.find(tag)` — the first direct child with the given tag. -/
def Elem.find (e : Elem) (t : String) : Option Elem :=
  e.children.find? (fun c => c.tag == t)

/-- The Python exceptions the parser can raise: `AttributeError`
(attribute access on `None`), `ValueError` (failed `int(...)` or an
invalid `datetime.date`) carrying the offending string, and pydantic's
`ValidationError` (a `None` passed for a required `str` field of the
entity models) carrying the field name. -/
inductive PyError : Type where
  | attributeError : PyError
  | valueError : String → PyError
  | validationError : String → PyError

/-- Whitespace accepted (and stripped) by Python `int(str)`. -/
def isPySpace (c : Char) : Bool :=
  c == ' ' || c == '\t' || c == '\n' || c == '\r' || c == '\x0b' || c == '\x0c'

/-- Digit run of a Python integer literal: digits with single underscores
allowed between digits (`int("1_2") = 12`), no leading or trailing
underscore, at least one digit.  `acc` is the value so far, `lastDigit`
records whether the previous character was a digit. -/
def pyDigitsAux : List Char → Nat → Bool → Option Nat
  | [], acc, true => some acc
  | [], _, false => none
  | c :: cs, acc, lastDigit =>
    if c.isDigit then pyDigitsAux cs (acc * 10 + (c.toNat - 48)) true
    else if c == '_' && lastDigit then pyDigitsAux cs acc false
    else none

/-- Python `int(s)` on a string: strip whitespace, optional sign, digit run.
Returns `none` exactly when `int(s)` raises `ValueError`. -/
def pyIntOpt (s : String) : Option Int :=
  let cs := ((s.data.dropWhile isPySpace).reverse.dropWhile isPySpace).reverse
  match cs with
  | '-' :: rest => (pyDigitsAux rest 0 false).map (fun n => -(n : Int))
  | '+' :: rest => (pyDigitsAux rest 0 false).map (fun n => (n : Int))
  | _ => (pyDigitsAux cs 0 false).map (fun n => (n : Int))

/-- Python `int(s)` with the `ValueError` carrying the raw string. -/
def pyInt (s : String) : Except PyError Int :=
  match pyIntOpt s with
  | some n => .ok n
  | none => .error (.valueError s)

/-- `int(attrs.get(key, default_int))`: an absent attribute yields the
integer default, a present attribute goes through `int(...)`. -/
def intAttr (e : Elem) (k : String) (d : Int) : Except PyError Int :=
  match e.getAttr k with
  | none => .ok d
  | some s => pyInt s

/-- A required pydantic `str` field of the entity models of
`models/law.py`: passing a Python `None` raises `ValidationError`
(carrying the field name), a `str` value passes through unchanged. -/
def reqStr (field : String) (v : Option String) : Except PyError String :=
  match v with
  | some s => .ok s
  | none => .error (.validationError field)

/-- A Gregorian calendar date, as `datetime.date`. -/
structure Date where
  year : Int
  month : Int
  day : Int

def isLeapYear (y : Int) : Bool :=
  (y % 4 == 0 && y % 100 != 0) || y % 400 == 0

def daysInMonth (y m : Int) : Int :=
  if m == 2 then (if isLeapYear y then 29 else 28)
  else if m == 4 || m == 6 || m == 9 || m == 11 then 30
  else 31

/-- The `datetime.date(y, m, d)` constructor: raises `ValueError` unless
`1 <= y <= 9999`, `1 <= m <= 12` and `1 <= d <= days_in_month(y, m)`. -/
def mkDate (y m d : Int) : Except PyError Date :=
  if 1 ≤ y ∧ y ≤ 9999 ∧ 1 ≤ m ∧ m ≤ 12 ∧ 1 ≤ d ∧ d ≤ daysInMonth y m then
    .ok { year := y, month := m, day := d }
  else
    .error (.valueError "day is out of range for month")

/-- `LawType` of `models/law.py`. -/
inductive LawType : Type where
  | ACT : LawType
  | CABINET_ORDER : LawType
  | ORDINANCE : LawType
  | IMPERIAL_ORDINANCE : LawType
  | RULE : LawType
  | OTHER : LawType

/-- `Law` of `models/law.py`.  `law_num` and `law_title` are required
pydantic `str` fields: the parser passes `elem.text` (which may be `None`)
to the constructor, and a `None` fails validation — see `builtLaw`, which
models the `Law(...)` call through `reqStr`. -/
structure Law where
  law_id : String
  law_type : LawType
  law_num : String
  law_title : String
  law_title_kana : Option String
  abbreviation : Option String
  era : String
  year : Int
  num : Int
  promulgate_date : Date
  enforce_date : Option Date

/-- `Item` of `models/law.py`.  `item_title` is a required pydantic `str`
field: an `ItemTitle` element that is present but empty passes `None` to
the constructor and fails validation — see `parse_item`, which models the
`Item(...)` call through `reqStr`. -/
structure Item where
  item_id : String
  paragraph_id : String
  item_num : Int
  item_title : String
  content : String

/-- `Paragraph` of `models/law.py`. -/
structure Paragraph where
  paragraph_id : String
  article_id : String
  paragraph_num : Int
  content : String
  items : List Item

/-- `Article` of `models/law.py`. -/
structure Article where
  article_id : String
  law_id : String
  article_num : Int
  article_title : Option String
  article_caption : Option String
  content : String
  paragraphs : List Paragraph

/-- `SupplProvision` of `models/law.py`. -/
structure SupplProvision where
  suppl_provision_id : String
  law_id : String
  amend_law_num : Option String
  suppl_provision_type : String
  extract : Bool
  articles : List Article
  paragraphs : List Paragraph

/-- `self.era_mapping` of `LawXMLParser.__init__`. -/
def era_mapping : List (String × String) :=
  [("Meiji", "明治"), ("Taisho", "大正"), ("Showa", "昭和"),
   ("Heisei", "平成"), ("Reiwa", "令和")]

/-- `self.law_type_mapping` of `LawXMLParser.__init__`. -/
def law_type_mapping : List (String × LawType) :=
  [("Act", .ACT), ("CabinetOrder", .CABINET_ORDER), ("Ordinance", .ORDINANCE),
   ("ImperialOrdinance", .IMPERIAL_ORDINANCE), ("Rule", .RULE)]

/-- `self.law_type_mapping.get(code, LawType.OTHER)`. -/
def lawTypeOf (code : String) : LawType :=
  (List.lookup code law_type_mapping).getD LawType.OTHER

/-- `era_start_years` of `LawXMLParser._convert_to_gregorian_date`. -/
def era_start_years : List (String × Int) :=
  [("Meiji", 1868), ("Taisho", 1912), ("Showa", 1926),
   ("Heisei", 1989), ("Reiwa", 2019)]

/-- The five era names `era_start_years` recognizes. -/
def recognized_eras : List String :=
  ["Meiji", "Taisho", "Showa", "Heisei", "Reiwa"]

/-- `LawXMLParser._convert_to_gregorian_date`: unrecognized era names fall
back to 1868, then `date(start_year + year - 1, month, day)`. -/
def convert_to_gregorian_date (era : String) (year month day : Int) :
    Except PyError Date :=
  let start_year := (List.lookup era era_start_years).getD 1868
  mkDate (start_year + year - 1) month day

/-- `s.split('_')[0]`: the characters before the first underscore. -/
def takeUntilUnderscore : List Char → List Char
  | [] => []
  | c :: cs => if c == '_' then [] else c :: takeUntilUnderscore cs

/-- `s.replace(' ', '_')`: every space character becomes an underscore
(other characters, including other whitespace, are unchanged). -/
def pyReplaceSpace (s : String) : String :=
  String.mk (s.data.map (fun c => if c == ' ' then '_' else c))

/-- `' '.join(l)`. -/
def joinWith (sep : String) : List String → String
  | [] => ""
  | [x] => x
  | x :: xs => x ++ sep ++ joinWith sep xs

/-- `' '.join(s.text for s in sentences if s.text)`: the texts of the
sentence elements, skipping `None` and empty texts, joined by one space. -/
def joinSentences (sentences : List Elem) : String :=
  joinWith " " (((sentences.filterMap Elem.text).filter (fun t => !(t == ""))))

/-- The Python `for`-loop pattern `for x in l: ys.append(f(x))` where `f`
may raise: left-to-right, stopping at the first exception. -/
def mapExcept {α β : Type} (f : α → Except PyError β) : List α → Except PyError (List β)
  | [] => .ok []
  | x :: xs => (f x).bind fun b => (mapExcept f xs).bind fun bs => .ok (b :: bs)

/-- The article-content accumulation loop of `_parse_article` and of the
synthesized article of `_parse_articles_from_element`:
`if not article.content: article.content = paragraph.content`. -/
def firstContent (paras : List Paragraph) : String :=
  paras.foldl (fun c p => if c = "" then p.content else c) ""

/-- The value passed for `item_title`:
`item_title_elem.text if item_title_elem is not None else str(item_num)`.
`None` when an `ItemTitle` element is present but has no text. -/
def itemTitleRaw (item_elem : Elem) (item_num : Int) : Option String :=
  match item_elem.find "ItemTitle" with
  | some t => t.text
  | none => some (toString item_num)

/-- `item_elem.get('Num', '1')` then `int(...)`, title defaulting to
`str(item_num)`: `LawXMLParser._parse_item`.  The `Item(...)` constructor
validates the required `str` field `item_title` (pydantic). -/
def parse_item (item_elem : Elem) (paragraph_id : String) : Except PyError Item :=
  (pyInt (item_elem.getAttrD "Num" "1")).bind fun item_num =>
  (reqStr "item_title" (itemTitleRaw item_elem item_num)).bind fun item_title =>
  Except.ok
    { item_id := paragraph_id ++ "_item" ++ toString item_num,
      paragraph_id := paragraph_id,
      item_num := item_num,
      item_title := item_title,
      content :=
        (match item_elem.find "ItemSentence" with
         | none => ""
         | some se => joinSentences (se.findall "Sentence")) }

/-- The paragraph `content` computation of `LawXMLParser._parse_paragraph`:
the space-joined sentence texts of the `ParagraphSentence` container, or
`''` when the container is absent. -/
def paragraphContentOf (e : Elem) : String :=
  match e.find "ParagraphSentence" with
  | none => ""
  | some ps => joinSentences (ps.findall "Sentence")

/-- `LawXMLParser._parse_paragraph`. -/
def parse_paragraph (para_elem : Elem) (article_id : String) : Except PyError Paragraph :=
  (pyInt (para_elem.getAttrD "Num" "1")).bind fun para_num =>
  (mapExcept (fun ie => parse_item ie (article_id ++ "_para" ++ toString para_num))
      (para_elem.findall "Item")).bind fun items =>
  Except.ok
    { paragraph_id := article_id ++ "_para" ++ toString para_num,
      article_id := article_id,
      paragraph_num := para_num,
      content := paragraphContentOf para_elem,
      items := items }

/-- `article_elem.get('Num', '0')`: the raw article numbering token. -/
def articleNumStr (e : Elem) : String :=
  e.getAttrD "Num" "0"

/-- The article-number computation of `LawXMLParser._parse_article`:
`int(s.split('_')[0])` when an underscore is present, else `int(s)`. -/
def articleNumOf (e : Elem) : Except PyError Int :=
  if (articleNumStr e).data.contains '_' then
    pyInt (String.mk (takeUntilUnderscore (articleNumStr e).data))
  else
    pyInt (articleNumStr e)

/-- `f"{law_id}_art{article_num_str}"`. -/
def articleIdOf (law_id : String) (e : Elem) : String :=
  law_id ++ "_art" ++ articleNumStr e

/-- `LawXMLParser._parse_article`. -/
def parse_article (article_elem : Elem) (law_id : String) : Except PyError Article :=
  (articleNumOf article_elem).bind fun article_num =>
  (mapExcept (fun pe => parse_paragraph pe (articleIdOf law_id article_elem))
      (article_elem.findall "Paragraph")).bind fun paras =>
  Except.ok
    { article_id := articleIdOf law_id article_elem,
      law_id := law_id,
      article_num := article_num,
      article_title := (article_elem.find "ArticleTitle").bind Elem.text,
      article_caption := (article_elem.find "ArticleCaption").bind Elem.text,
      content := firstContent paras,
      paragraphs := paras }

/-- The implicit article synthesized by `_parse_articles_from_element` for a
subtree holding paragraphs with no enclosing article. -/
def synthMainArticle (law_id : String) (paras : List Paragraph) : Article :=
  { article_id := law_id ++ "_main",
    law_id := law_id,
    article_num := 0,
    article_title := none,
    article_caption := none,
    content := firstContent paras,
    paragraphs := paras }

/-- `LawXMLParser._parse_articles_from_element`. -/
def parse_articles_from_element (element : Elem) (law_id : String) :
    Except PyError (List Article) :=
  (mapExcept (fun ae => parse_article ae law_id) (element.findall "Article")).bind
    fun articles =>
  if !(element.findall "Paragraph").isEmpty && (element.findall "Article").isEmpty then
    (mapExcept (fun pe => parse_paragraph pe (law_id ++ "_main"))
        (element.findall "Paragraph")).bind fun paras =>
    Except.ok (articles ++ [synthMainArticle law_id paras])
  else
    Except.ok articles

/-- `LawXMLParser.parse_articles`: `MainProvision` first, then every
`Chapter`, in document order.  A missing `LawBody` raises `AttributeError`
(`law_body.find(...)` on `None`). -/
def parse_articles (root : Elem) (law_id : String) : Except PyError (List Article) :=
  match root.find "LawBody" with
  | none => .error .attributeError
  | some law_body =>
    (match law_body.find "MainProvision" with
     | none => Except.ok []
     | some mp => parse_articles_from_element mp law_id).bind fun fromMain =>
    (mapExcept (fun ch => parse_articles_from_element ch law_id)
        (law_body.findall "Chapter")).bind fun fromChapters =>
    Except.ok (fromMain ++ fromChapters.flatten)

/-- The supplementary-provision identifier of `_parse_suppl_provision`:
`f"{law_id}_suppl_{suppl_type}"`, extended by `f"_{amend_law_num.replace(' ', '_')}"`
when `amend_law_num` is truthy (present and non-empty). -/
def supplIdOf (law_id : String) (e : Elem) : String :=
  let base := law_id ++ "_suppl_" ++ e.getAttrD "Type" "New"
  match e.getAttr "AmendLawNum" with
  | none => base
  | some a => if a == "" then base else base ++ "_" ++ pyReplaceSpace a

/-- `LawXMLParser._parse_suppl_provision`.  Note that the nested articles
are parsed with the law's `law_id`, not the provision's own identifier. -/
def parse_suppl_provision (suppl_elem : Elem) (law_id : String) :
    Except PyError SupplProvision :=
  (mapExcept (fun ae => parse_article ae law_id) (suppl_elem.findall "Article")).bind
    fun articles =>
  (mapExcept (fun pe => parse_paragraph pe (supplIdOf law_id suppl_elem))
      (suppl_elem.findall "Paragraph")).bind fun paragraphs =>
  Except.ok
    { suppl_provision_id := supplIdOf law_id suppl_elem,
      law_id := law_id,
      amend_law_num := suppl_elem.getAttr "AmendLawNum",
      suppl_provision_type := suppl_elem.getAttrD "Type" "New",
      extract := suppl_elem.getAttrD "Extract" "false" == "true",
      articles := articles,
      paragraphs := paragraphs }

/-- `LawXMLParser.parse_suppl_provisions`. -/
def parse_suppl_provisions (root : Elem) (law_id : String) :
    Except PyError (List SupplProvision) :=
  match root.find "LawBody" with
  | none => .error .attributeError
  | some law_body =>
    mapExcept (fun se => parse_suppl_provision se law_id)
      (law_body.findall "SupplProvision")

/-- The metadata prefix of `parse_law_file`: year, serial number and
promulgation date from the root attributes (the era and law-type lookups
cannot fail and are inlined at the use site). -/
def law_metadata (root : Elem) : Except PyError (Int × Int × Date) :=
  (intAttr root "Year" 0).bind fun year =>
  (intAttr root "Num" 0).bind fun num =>
  (intAttr root "PromulgateMonth" 1).bind fun pm =>
  (intAttr root "PromulgateDay" 1).bind fun pd =>
  (convert_to_gregorian_date (root.getAttrD "Era" "") year pm pd).bind fun pdate =>
  Except.ok (year, num, pdate)

/-- The value passed for `law_num`:
`law_num_elem.text if law_num_elem is not None else ''`.  `None` when a
`LawNum` element is present but has no text. -/
def lawNumRaw (root : Elem) : Option String :=
  match root.find "LawNum" with
  | some e2 => e2.text
  | none => some ""

/-- The value passed for `law_title`:
`law_title_elem.text if law_title_elem is not None else ''`.  `None` when
a `LawTitle` element is present but has no text. -/
def lawTitleRaw (law_body : Elem) : Option String :=
  match law_body.find "LawTitle" with
  | some e2 => e2.text
  | none => some ""

/-- The `Law` record produced when the `Law(...)` constructor validation
succeeds, with the validated `law_num` and `law_title` strings. -/
def builtLawRecord (root : Elem) (stem : String) (law_body : Elem)
    (md : Int × Int × Date) (law_num law_title : String) : Law :=
  { law_id := String.mk (takeUntilUnderscore stem.data),
    law_type := lawTypeOf (root.getAttrD "LawType" ""),
    law_num := law_num,
    law_title := law_title,
    law_title_kana := (law_body.find "LawTitle").map (fun e2 => e2.getAttrD "Kana" ""),
    abbreviation := (law_body.find "LawTitle").map (fun e2 => e2.getAttrD "Abbrev" ""),
    era := (List.lookup (root.getAttrD "Era" "") era_mapping).getD (root.getAttrD "Era" ""),
    year := md.1,
    num := md.2.1,
    promulgate_date := md.2.2,
    enforce_date := none }

/-- The `Law(...)` constructor call at the end of `parse_law_file`:
pydantic validates the required `str` fields `law_num` and `law_title` in
field order, raising `ValidationError` when the value passed is `None`. -/
def builtLaw (root : Elem) (stem : String) (law_body : Elem)
    (md : Int × Int × Date) : Except PyError Law :=
  (reqStr "law_num" (lawNumRaw root)).bind fun law_num =>
  (reqStr "law_title" (lawTitleRaw law_body)).bind fun law_title =>
  Except.ok (builtLawRecord root stem law_body md law_num law_title)

/-- `LawXMLParser.parse_law_file` on the parsed document `root` and the
filename stem (`law_id = file_path.stem.split('_')[0]`).  A missing
`LawBody` raises `AttributeError` at `law_body.find('LawTitle')`; the
final `Law(...)` call validates its required `str` fields. -/
def parse_law_file (root : Elem) (stem : String) : Except PyError Law :=
  (law_metadata root).bind fun md =>
  match root.find "LawBody" with
  | none => .error .attributeError
  | some law_body => builtLaw root stem law_body md

/-! ## Concrete documents and expected outputs used by the witnesses -/

def c1ArtElem : Elem := .mk "Article" [("Num", "2_2")] none []

def c1Article : Article :=
  { article_id := "LAW_art2_2", law_id := "LAW", article_num := 2,
    article_title := none, article_caption := none, content := "", paragraphs := [] }

def c1ParaElem : Elem := .mk "Paragraph" [("Num", "3")] none []

def c1Paragraph : Paragraph :=
  { paragraph_id := "LAW_art2_2_para3", article_id := "LAW_art2_2",
    paragraph_num := 3, content := "", items := [] }

def c1ItemElem : Elem := .mk "Item" [("Num", "4")] none []

def c1Item : Item :=
  { item_id := "P_item4", paragraph_id := "P", item_num := 4,
    item_title := "4", content := "" }

def c2Bad : Elem := .mk "Article" [("Num", "abc")] none []

def c2Good : Elem := .mk "Article" [("Num", "2")] none []

def c2Elem : Elem := .mk "MainProvision" [] none [c2Bad, c2Good]

def c3Body : Elem := .mk "LawBody" [] none []

def c3Root : Elem := .mk "Law" [] none [c3Body]

def c3NoBodyRoot : Elem := .mk "Law" [] none []

def c3Md : Int × Int × Date := (0, 0, { year := 1867, month := 1, day := 1 })

def c3EmptyNumRoot : Elem :=
  .mk "Law" [] none [.mk "LawNum" [] none [], c3Body]

def c4Elem : Elem :=
  .mk "Article" [("Num", "1")] none
    [.mk "Paragraph" [("Num", "1")] none
       [.mk "ParagraphSentence" [] none [.mk "Sentence" [] (some "A") []]],
     .mk "Paragraph" [("Num", "2")] none
       [.mk "ParagraphSentence" [] none [.mk "Sentence" [] (some "B") []]]]

def c4Article : Article :=
  { article_id := "L_art1", law_id := "L", article_num := 1,
    article_title := none, article_caption := none, content := "A",
    paragraphs :=
      [{ paragraph_id := "L_art1_para1", article_id := "L_art1",
         paragraph_num := 1, content := "A", items := [] },
       { paragraph_id := "L_art1_para2", article_id := "L_art1",
         paragraph_num := 2, content := "B", items := [] }] }

def c5Date : Date := { year := 2019, month := 5, day := 1 }

def c6Date : Date := { year := 1872, month := 1, day := 1 }

def c7MainElem : Elem := .mk "Article" [("Num", "3")] none []

def c7SupplArtElem : Elem :=
  .mk "Article" [("Num", "3")] none [.mk "ArticleCaption" [] (some "c") []]

def c7Suppl : Elem := .mk "SupplProvision" [("Type", "New")] none [c7SupplArtElem]

def c7MainArt : Article :=
  { article_id := "L_art3", law_id := "L", article_num := 3,
    article_title := none, article_caption := none, content := "", paragraphs := [] }

def c7SupplArt : Article :=
  { article_id := "L_art3", law_id := "L", article_num := 3,
    article_title := none, article_caption := some "c", content := "", paragraphs := [] }

def c7SP : SupplProvision :=
  { suppl_provision_id := "L_suppl_New", law_id := "L", amend_law_num := none,
    suppl_provision_type := "New", extract := false,
    articles := [c7SupplArt], paragraphs := [] }

def c8Elem : Elem :=
  .mk "MainProvision" [] none
    [.mk "Paragraph" [("Num", "1")] none
       [.mk "ParagraphSentence" [] none [.mk "Sentence" [] (some "P1") []]],
     .mk "Paragraph" [("Num", "2")] none
       [.mk "ParagraphSentence" [] none [.mk "Sentence" [] (some "P2") []]]]

def c8Paras : List Paragraph :=
  [{ paragraph_id := "L_main_para1", article_id := "L_main",
     paragraph_num := 1, content := "P1", items := [] },
   { paragraph_id := "L_main_para2", article_id := "L_main",
     paragraph_num := 2, content := "P2", items := [] }]

def c8Arts : List Article :=
  [{ article_id := "L_main", law_id := "L", article_num := 0,
     article_title := none, article_caption := none, content := "P1",
     paragraphs := c8Paras }]

def c9TabElem : Elem :=
  .mk "SupplProvision" [("Type", "Amend"), ("AmendLawNum", "X\tY")] none []

def c9TabSP : SupplProvision :=
  { suppl_provision_id := "L_suppl_Amend_X\tY", law_id := "L",
    amend_law_num := some "X\tY", suppl_provision_type := "Amend",
    extract := false, articles := [], paragraphs := [] }

def c9Elem : Elem :=
  .mk "SupplProvision" [("Type", "Amend"), ("AmendLawNum", "X Y")] none []

def c9SP : SupplProvision :=
  { suppl_provision_id := "L_suppl_Amend_X_Y", law_id := "L",
    amend_law_num := some "X Y", suppl_provision_type := "Amend",
    extract := false, articles := [], paragraphs := [] }

def c10PS : Elem :=
  .mk "ParagraphSentence" [] none
    [.mk "Sentence" [] (some "First.") [], .mk "Sentence" [] (some "Second.") []]

def c10Elem : Elem := .mk "Paragraph" [("Num", "1")] none [c10PS]

def c10Para : Paragraph :=
  { paragraph_id := "A_para1", article_id := "A", paragraph_num := 1,
    content := "First. Second.", items := [] }

def c10EmptyElem : Elem := .mk "Paragraph" [("Num", "1")] none []

def c10ParaEmpty : Paragraph :=
  { paragraph_id := "A_para1", article_id := "A", paragraph_num := 1,
    content := "", items := [] }

/-! ## Helper lemmas -/

theorem exceptBindOkInv {α β : Type} {x : Except PyError α} {f : α → Except PyError β}
    {b : β} (h : Except.bind x f = Except.ok b) : ∃ a, x = Except.ok a ∧ f a = Except.ok b := by
  cases x with
  | error e => simp [Except.bind] at h
  | ok a => exact ⟨a, rfl, h⟩

theorem exceptOkInj {α : Type} {a b : α}
    (h : (Except.ok a : Except PyError α) = Except.ok b) : a = b := by
  cases h
  rfl

theorem mapExcept_error_of_mem {α β : Type} (f : α → Except PyError β) (l : List α)
    (a : α) (err : PyError) (ha : a ∈ l) (herr : f a = .error err) :
    ∃ e2, mapExcept f l = .error e2 := by
  induction l with
  | nil => cases ha
  | cons x xs ih =>
    cases hfx : f x with
    | error e => exact ⟨e, by simp [mapExcept, hfx, Except.bind]⟩
    | ok b =>
      cases ha with
      | head =>
        rw [herr] at hfx
        exact Except.noConfusion hfx
      | tail _ hmem =>
        obtain ⟨e2, he2⟩ := ih hmem
        exact ⟨e2, by simp [mapExcept, hfx, he2, Except.bind]⟩

theorem mkDate_ok_fields (y m d : Int) (dt : Date) (h : mkDate y m d = .ok dt) :
    dt.year = y ∧ dt.month = m ∧ dt.day = d := by
  unfold mkDate at h
  split at h
  · cases h
    exact ⟨rfl, rfl, rfl⟩
  · cases h

theorem era_lookup_isSome_iff (s : String) :
    (List.lookup s era_start_years).isSome = true ↔ s ∈ recognized_eras := by
  by_cases h1 : s = "Meiji"
  · subst h1; decide
  by_cases h2 : s = "Taisho"
  · subst h2; decide
  by_cases h3 : s = "Showa"
  · subst h3; decide
  by_cases h4 : s = "Heisei"
  · subst h4; decide
  by_cases h5 : s = "Reiwa"
  · subst h5; decide
  have b1 : (s == "Meiji") = false := beq_eq_false_iff_ne.mpr h1
  have b2 : (s == "Taisho") = false := beq_eq_false_iff_ne.mpr h2
  have b3 : (s == "Showa") = false := beq_eq_false_iff_ne.mpr h3
  have b4 : (s == "Heisei") = false := beq_eq_false_iff_ne.mpr h4
  have b5 : (s == "Reiwa") = false := beq_eq_false_iff_ne.mpr h5
  simp [era_start_years, recognized_eras, List.lookup, b1, b2, b3, b4, b5, h1, h2, h3, h4, h5]

theorem era_lookup_eq_none (s : String) (h : s ∉ recognized_eras) :
    List.lookup s era_start_years = none := by
  cases heq : List.lookup s era_start_years with
  | none => rfl
  | some v =>
    exact absurd ((era_lookup_isSome_iff s).mp (by rw [heq]; rfl)) h

theorem foldl_content_stay (l : List Paragraph) (c : String) (hc : ¬ c = "") :
    List.foldl (fun c2 p => if c2 = "" then p.content else c2) c l = c := by
  induction l generalizing c with
  | nil => rfl
  | cons p ps ih =>
    rw [List.foldl_cons, if_neg hc]
    exact ih c hc

theorem firstContent_eq_find (l : List Paragraph) :
    firstContent l = ((l.map Paragraph.content).find? (fun s => !(s == ""))).getD "" := by
  induction l with
  | nil => rfl
  | cons p ps ih =>
    by_cases hp : p.content = ""
    · have h1 : firstContent (p :: ps) = firstContent ps := by
        unfold firstContent
        rw [List.foldl_cons, if_pos rfl, hp]
      have h2 : (!(p.content == "")) = false := by
        rw [hp]
        rfl
      rw [h1, ih, List.map_cons, List.find?_cons, h2]
    · have h2 : (!(p.content == "")) = true := by
        have := beq_eq_false_iff_ne.mpr hp
        rw [this]
        rfl
      have h1 : firstContent (p :: ps) = p.content := by
        unfold firstContent
        rw [List.foldl_cons, if_pos rfl]
        exact foldl_content_stay ps p.content hp
      rw [h1, List.map_cons, List.find?_cons, h2]
      rfl

theorem filterMap_text_of_map_some (l : List Elem) (ts : List String)
    (h : l.map Elem.text = ts.map some) : l.filterMap Elem.text = ts := by
  induction l generalizing ts with
  | nil =>
    cases ts with
    | nil => rfl
    | cons t ts2 => simp at h
  | cons x xs ih =>
    cases ts with
    | nil => simp at h
    | cons t ts2 =>
      rw [List.map_cons, List.map_cons] at h
      injection h with h1 h2
      rw [List.filterMap_cons, h1, ih ts2 h2]

theorem filter_nonempty_eq_self (ts : List String) (h : ∀ t ∈ ts, ¬ t = "") :
    ts.filter (fun s => !(s == "")) = ts := by
  induction ts with
  | nil => rfl
  | cons t ts2 ih =>
    have h1 : ¬ t = "" := h t (List.Mem.head _)
    have hb : (!(t == "")) = true := by
      rw [beq_eq_false_iff_ne.mpr h1]
      rfl
    rw [List.filter_cons, if_pos hb, ih (fun u hu => h u (List.Mem.tail _ hu))]

theorem parse_item_ok_inv (e : Elem) (pid : String) (it : Item)
    (h : parse_item e pid = .ok it) :
    ∃ (n : Int) (title : String),
      pyInt (e.getAttrD "Num" "1") = .ok n
      ∧ reqStr "item_title" (itemTitleRaw e n) = .ok title
      ∧ it = { item_id := pid ++ "_item" ++ toString n,
               paragraph_id := pid,
               item_num := n,
               item_title := title,
               content :=
                 (match e.find "ItemSentence" with
                  | none => ""
                  | some se => joinSentences (se.findall "Sentence")) } := by
  unfold parse_item at h
  obtain ⟨n, hn, h⟩ := exceptBindOkInv h
  obtain ⟨title, ht, h⟩ := exceptBindOkInv h
  exact ⟨n, title, hn, ht, (exceptOkInj h).symm⟩

theorem parse_paragraph_ok_inv (e : Elem) (aid : String) (p : Paragraph)
    (h : parse_paragraph e aid = .ok p) :
    ∃ (n : Int) (items : List Item),
      pyInt (e.getAttrD "Num" "1") = .ok n
      ∧ mapExcept (fun ie => parse_item ie (aid ++ "_para" ++ toString n))
          (e.findall "Item") = .ok items
      ∧ p = { paragraph_id := aid ++ "_para" ++ toString n,
              article_id := aid,
              paragraph_num := n,
              content := paragraphContentOf e,
              items := items } := by
  unfold parse_paragraph at h
  obtain ⟨n, hn, h⟩ := exceptBindOkInv h
  obtain ⟨items, hi, h⟩ := exceptBindOkInv h
  exact ⟨n, items, hn, hi, (exceptOkInj h).symm⟩

theorem parse_article_ok_inv (e : Elem) (l : String) (a : Article)
    (h : parse_article e l = .ok a) :
    ∃ (n : Int) (paras : List Paragraph),
      articleNumOf e = .ok n
      ∧ mapExcept (fun pe => parse_paragraph pe (articleIdOf l e))
          (e.findall "Paragraph") = .ok paras
      ∧ a = { article_id := articleIdOf l e,
              law_id := l,
              article_num := n,
              article_title := (e.find "ArticleTitle").bind Elem.text,
              article_caption := (e.find "ArticleCaption").bind Elem.text,
              content := firstContent paras,
              paragraphs := paras } := by
  unfold parse_article at h
  obtain ⟨n, hn, h⟩ := exceptBindOkInv h
  obtain ⟨paras, hp, h⟩ := exceptBindOkInv h
  exact ⟨n, paras, hn, hp, (exceptOkInj h).symm⟩

theorem parse_suppl_ok_inv (e : Elem) (l : String) (sp : SupplProvision)
    (h : parse_suppl_provision e l = .ok sp) :
    ∃ (articles : List Article) (paragraphs : List Paragraph),
      mapExcept (fun ae => parse_article ae l) (e.findall "Article") = .ok articles
      ∧ mapExcept (fun pe => parse_paragraph pe (supplIdOf l e))
          (e.findall "Paragraph") = .ok paragraphs
      ∧ sp = { suppl_provision_id := supplIdOf l e,
               law_id := l,
               amend_law_num := e.getAttr "AmendLawNum",
               suppl_provision_type := e.getAttrD "Type" "New",
               extract := e.getAttrD "Extract" "false" == "true",
               articles := articles,
               paragraphs := paragraphs } := by
  unfold parse_suppl_provision at h
  obtain ⟨arts, ha, h⟩ := exceptBindOkInv h
  obtain ⟨ps, hp, h⟩ := exceptBindOkInv h
  exact ⟨arts, ps, ha, hp, (exceptOkInj h).symm⟩

/-! ## Claim theorems -/

/-- C1: for every `law_id` and raw article numbering token, the derived
article identifier is `law_id ++ "_art" ++ token` with the token used
verbatim; paragraph identifiers are `article_id ++ "_para" ++ paragraph_num`;
item identifiers are `paragraph_id ++ "_item" ++ item_num`; and identical
inputs always yield identical identifiers. -/
theorem C1_identifier_scheme :
    (∀ (e : Elem) (law_id : String) (a : Article),
        parse_article e law_id = .ok a →
        a.article_id = law_id ++ "_art" ++ e.getAttrD "Num" "0")
    ∧ (∀ (e : Elem) (article_id : String) (p : Paragraph),
        parse_paragraph e article_id = .ok p →
        p.paragraph_id = article_id ++ "_para" ++ toString p.paragraph_num)
    ∧ (∀ (e : Elem) (paragraph_id : String) (it : Item),
        parse_item e paragraph_id = .ok it →
        it.item_id = paragraph_id ++ "_item" ++ toString it.item_num)
    ∧ (∀ (e1 e2 : Elem) (l1 l2 : String), e1 = e2 → l1 = l2 →
        parse_article e1 l1 = parse_article e2 l2
        ∧ parse_paragraph e1 l1 = parse_paragraph e2 l2
        ∧ parse_item e1 l1 = parse_item e2 l2) := by
  refine ⟨?_, ?_, ?_, ?_⟩
  · intro e law_id a h
    obtain ⟨n, paras, hn, hp, ha⟩ := parse_article_ok_inv e law_id a h
    subst ha
    rfl
  · intro e aid p h
    obtain ⟨n, items, hn, hi, hp⟩ := parse_paragraph_ok_inv e aid p h
    subst hp
    rfl
  · intro e pid it h
    obtain ⟨n, title, hn, ht, hi⟩ := parse_item_ok_inv e pid it h
    subst hi
    rfl
  · intro e1 e2 l1 l2 he hl
    subst he
    subst hl
    exact ⟨rfl, rfl, rfl⟩

/-- C1 witness at concrete inputs: an article with raw token `"2_2"`, a
paragraph numbered 3, an item numbered 4. -/
theorem C1_witness :
    c1Article.article_id = "LAW" ++ "_art" ++ c1ArtElem.getAttrD "Num" "0"
    ∧ c1Paragraph.paragraph_id = "LAW_art2_2" ++ "_para" ++ toString c1Paragraph.paragraph_num
    ∧ c1Item.item_id = "P" ++ "_item" ++ toString c1Item.item_num
    ∧ parse_article c1ArtElem "LAW" = parse_article c1ArtElem "LAW" :=
  ⟨C1_identifier_scheme.1 c1ArtElem "LAW" c1Article rfl,
   C1_identifier_scheme.2.1 c1ParaElem "LAW_art2_2" c1Paragraph rfl,
   C1_identifier_scheme.2.2.1 c1ItemElem "P" c1Item rfl,
   (C1_identifier_scheme.2.2.2 c1ArtElem c1ArtElem "LAW" "LAW" rfl rfl).1⟩

/-- C5: the conversion table recognizes exactly the five era names, maps
them to the historical start years, and for a recognized era the computed
calendar year is `start_year + era_relative_year - 1`. -/
theorem C5_era_conversion :
    (∀ s : String, (List.lookup s era_start_years).isSome = true ↔ s ∈ recognized_eras)
    ∧ List.lookup "Meiji" era_start_years = some 1868
    ∧ List.lookup "Taisho" era_start_years = some 1912
    ∧ List.lookup "Showa" era_start_years = some 1926
    ∧ List.lookup "Heisei" era_start_years = some 1989
    ∧ List.lookup "Reiwa" era_start_years = some 2019
    ∧ (∀ (era : String) (start y m d : Int) (dt : Date),
        List.lookup era era_start_years = some start →
        convert_to_gregorian_date era y m d = .ok dt →
        dt.year = start + y - 1) := by
  refine ⟨era_lookup_isSome_iff, rfl, rfl, rfl, rfl, rfl, ?_⟩
  intro era start y m d dt hl hc
  unfold convert_to_gregorian_date at hc
  rw [hl] at hc
  exact (mkDate_ok_fields _ _ _ _ hc).1

/-- C5 witness: era `"Reiwa"` at era-relative year 1 and date 5/1 gives the
calendar year 2019 (the era's start year). -/
theorem C5_witness : c5Date.year = 2019 + 1 - 1 :=
  C5_era_conversion.2.2.2.2.2.2 "Reiwa" 2019 1 5 1 c5Date rfl rfl

/-- C6: an era name outside the five recognized ones does not fail with an
unknown-era error: the conversion behaves exactly as with start year 1868,
so an ok result has calendar year `1868 + era_relative_year - 1`. -/
theorem C6_unknown_era_fallback (era : String) (h : era ∉ recognized_eras)
    (y m d : Int) :
    convert_to_gregorian_date era y m d = mkDate (1868 + y - 1) m d
    ∧ (∀ dt : Date, convert_to_gregorian_date era y m d = .ok dt →
        dt.year = 1868 + y - 1) := by
  have hl : List.lookup era era_start_years = none := era_lookup_eq_none era h
  constructor
  · unfold convert_to_gregorian_date
    rw [hl]
    rfl
  · intro dt hc
    unfold convert_to_gregorian_date at hc
    rw [hl] at hc
    exact (mkDate_ok_fields _ _ _ _ hc).1

/-- C6 witness: the unrecognized era `"Ansei"` at era-relative year 5 is
converted with start year 1868, giving calendar year 1872. -/
theorem C6_witness :
    convert_to_gregorian_date "Ansei" 5 1 1 = mkDate (1868 + 5 - 1) 1 1
    ∧ c6Date.year = 1868 + 5 - 1 :=
  ⟨(C6_unknown_era_fallback "Ansei" (by decide) 5 1 1).1,
   (C6_unknown_era_fallback "Ansei" (by decide) 5 1 1).2 c6Date rfl⟩

/-- C2 (amended): a numbering token that cannot be parsed as an integer does
NOT merely fail its own element — the exception propagates, so the whole
article-list construction for the containing subtree fails and no sibling
article is returned. -/
theorem C2_bad_token_aborts_subtree (e : Elem) (law_id : String) (a : Elem)
    (err : PyError) (ha : a ∈ e.findall "Article")
    (herr : parse_article a law_id = .error err) :
    (parse_articles_from_element e law_id).isOk = false := by
  obtain ⟨e2, he2⟩ := mapExcept_error_of_mem (fun ae => parse_article ae law_id)
    (e.findall "Article") a err ha herr
  unfold parse_articles_from_element
  rw [he2]
  rfl

/-- C2 witness: in a subtree with articles `Num="abc"` and `Num="2"`, the
bad first token makes the whole subtree parse fail. -/
theorem C2_witness : (parse_articles_from_element c2Elem "L").isOk = false :=
  C2_bad_token_aborts_subtree c2Elem "L" c2Bad (.valueError "abc")
    (List.Mem.head _) rfl

/-- C2 counterexample to the claim as stated: the sibling `Num="2"` article
is perfectly parseable on its own, yet the subtree parse produces no article
list at all — it fails with the bad element's `ValueError` instead of
constructing the siblings. -/
theorem C2_counterexample :
    parse_article c2Good "L" = .ok
      { article_id := "L_art2", law_id := "L", article_num := 2,
        article_title := none, article_caption := none, content := "",
        paragraphs := [] }
    ∧ parse_articles_from_element c2Elem "L" = .error (.valueError "abc") :=
  ⟨rfl, rfl⟩

/-- C3 (amended): given that the root-attribute metadata parses, a missing
`LawBody` is fatal (`AttributeError`, no partial `Law`).  A missing
`LawTitle` element is NOT fatal: the title resolves to the empty string
and, provided the law-number value passed to pydantic's required `str`
field is an actual string (an absent `LawNum` element yields the string
`''`), the parse succeeds with a full `Law`.  A `LawNum` element that is
present but empty instead passes `None` and fails pydantic validation. -/
theorem C3_structural_errors (root : Elem) (stem : String) (md : Int × Int × Date)
    (hmd : law_metadata root = .ok md) :
    (root.find "LawBody" = none →
      parse_law_file root stem = .error .attributeError)
    ∧ (∀ (law_body : Elem) (lnum : String),
        root.find "LawBody" = some law_body →
        law_body.find "LawTitle" = none →
        lawNumRaw root = some lnum →
        parse_law_file root stem
          = .ok (builtLawRecord root stem law_body md lnum "")
        ∧ (builtLawRecord root stem law_body md lnum "").law_title = "")
    ∧ (∀ law_body : Elem,
        root.find "LawBody" = some law_body →
        lawNumRaw root = none →
        parse_law_file root stem = .error (.validationError "law_num")) := by
  refine ⟨?_, ?_, ?_⟩
  · intro hb
    unfold parse_law_file
    rw [hmd, hb]
    rfl
  · intro law_body lnum hb ht hn
    constructor
    · unfold parse_law_file
      rw [hmd, hb]
      show builtLaw root stem law_body md
        = .ok (builtLawRecord root stem law_body md lnum "")
      unfold builtLaw lawTitleRaw
      rw [hn, ht]
      rfl
    · rfl
  · intro law_body hb hn
    unfold parse_law_file
    rw [hmd, hb]
    show builtLaw root stem law_body md = .error (.validationError "law_num")
    unfold builtLaw
    rw [hn]
    rfl

/-- C3 witness: a document without `LawBody` fails with `AttributeError`;
a document whose `LawBody` lacks a `LawTitle` parses to a full `Law` whose
title is the empty string; a document with an empty `LawNum` element fails
pydantic validation of `law_num`. -/
theorem C3_witness :
    parse_law_file c3NoBodyRoot "L" = .error .attributeError
    ∧ parse_law_file c3Root "Lx" = .ok (builtLawRecord c3Root "Lx" c3Body c3Md "" "")
    ∧ (builtLawRecord c3Root "Lx" c3Body c3Md "" "").law_title = ""
    ∧ parse_law_file c3EmptyNumRoot "L" = .error (.validationError "law_num") :=
  ⟨(C3_structural_errors c3NoBodyRoot "L" c3Md rfl).1 rfl,
   ((C3_structural_errors c3Root "Lx" c3Md rfl).2.1 c3Body "" rfl rfl rfl).1,
   ((C3_structural_errors c3Root "Lx" c3Md rfl).2.1 c3Body "" rfl rfl rfl).2,
   (C3_structural_errors c3EmptyNumRoot "L" c3Md rfl).2.2 c3Body rfl rfl⟩

/-- C3 counterexample to the claim as stated: a document whose title element
is absent does NOT fail the whole-document parse — `parse_law_file`
succeeds and returns a full `Law` with an empty title. -/
theorem C3_counterexample :
    c3Body.find "LawTitle" = none
    ∧ parse_law_file c3Root "Lx" = .ok
        { law_id := "Lx", law_type := .OTHER, law_num := "",
          law_title := "", law_title_kana := none, abbreviation := none,
          era := "", year := 0, num := 0,
          promulgate_date := { year := 1867, month := 1, day := 1 },
          enforce_date := none } :=
  ⟨rfl, rfl⟩

/-- C4 (amended): an article's `content` is the content of its first
paragraph with non-empty content (or `""` when there is none) — not the
concatenation of all its paragraphs' contents. -/
theorem C4_article_content (e : Elem) (law_id : String) (a : Article)
    (h : parse_article e law_id = .ok a) :
    a.content = ((a.paragraphs.map Paragraph.content).find? (fun s => !(s == ""))).getD "" := by
  obtain ⟨n, paras, hn, hp, ha⟩ := parse_article_ok_inv e law_id a h
  subst ha
  exact firstContent_eq_find paras

/-- C4 witness: the two-paragraph article with contents `"A"`, `"B"`. -/
theorem C4_witness :
    c4Article.content
      = ((c4Article.paragraphs.map Paragraph.content).find? (fun s => !(s == ""))).getD "" :=
  C4_article_content c4Elem "L" c4Article rfl

/-- C4 counterexample to the claim as stated: an article with paragraph
contents `"A"` and `"B"` gets content `"A"`, which is not the concatenation
of its paragraphs' contents (neither `"AB"` nor `"A B"`). -/
theorem C4_counterexample :
    parse_article c4Elem "L" = .ok c4Article
    ∧ c4Article.content = "A"
    ∧ c4Article.paragraphs.map Paragraph.content = ["A", "B"]
    ∧ ("A" : String) ≠ "AB"
    ∧ ("A" : String) ≠ "A B" :=
  ⟨rfl, rfl, rfl, by decide, by decide⟩

/-- C7: articles nested in a supplementary provision are parsed by the same
article rule with the law's `law_id` scope (the very `mapExcept` over
`parse_article _ law_id` that the main body uses), so a main-body article
and a supplementary-provision article carrying the same raw numbering token
receive the identical `article_id`. -/
theorem C7_suppl_article_scope :
    (∀ (s : Elem) (law_id : String) (sp : SupplProvision),
        parse_suppl_provision s law_id = .ok sp →
        mapExcept (fun ae => parse_article ae law_id) (s.findall "Article")
          = .ok sp.articles)
    ∧ (∀ (a b : Elem) (law_id : String) (arta artb : Article),
        a.getAttrD "Num" "0" = b.getAttrD "Num" "0" →
        parse_article a law_id = .ok arta →
        parse_article b law_id = .ok artb →
        arta.article_id = artb.article_id) := by
  constructor
  · intro s law_id sp h
    obtain ⟨arts, ps, ha, hp, hsp⟩ := parse_suppl_ok_inv s law_id sp h
    subst hsp
    exact ha
  · intro a b law_id arta artb hnum ha hb
    obtain ⟨n1, p1, _, _, h1⟩ := parse_article_ok_inv a law_id arta ha
    obtain ⟨n2, p2, _, _, h2⟩ := parse_article_ok_inv b law_id artb hb
    subst h1
    subst h2
    show articleIdOf law_id a = articleIdOf law_id b
    unfold articleIdOf articleNumStr
    rw [hnum]

/-- C7 witness: a supplementary provision containing an article with raw
token `"3"`, and a main-body article with the same token: identical ids. -/
theorem C7_witness :
    mapExcept (fun ae => parse_article ae "L") (c7Suppl.findall "Article")
      = .ok c7SP.articles
    ∧ c7MainArt.article_id = c7SupplArt.article_id :=
  ⟨C7_suppl_article_scope.1 c7Suppl "L" c7SP rfl,
   C7_suppl_article_scope.2 c7MainElem c7SupplArtElem "L" c7MainArt c7SupplArt
     rfl rfl rfl⟩

/-- C8: a subtree with paragraph elements but no article element produces
exactly one synthesized article, with `article_num = 0`, identifier
`law_id ++ "_main"`, holding exactly the paragraphs parsed from the
subtree's paragraph elements in document order. -/
theorem C8_synthesized_main_article (e : Elem) (law_id : String)
    (arts : List Article) (paras : List Paragraph)
    (hp : (e.findall "Paragraph").isEmpty = false)
    (ha : (e.findall "Article").isEmpty = true)
    (hparas : mapExcept (fun pe => parse_paragraph pe (law_id ++ "_main"))
        (e.findall "Paragraph") = .ok paras)
    (hok : parse_articles_from_element e law_id = .ok arts) :
    arts = [synthMainArticle law_id paras]
    ∧ (synthMainArticle law_id paras).article_num = 0
    ∧ (synthMainArticle law_id paras).article_id = law_id ++ "_main"
    ∧ (synthMainArticle law_id paras).paragraphs = paras := by
  have hA : e.findall "Article" = [] := by
    cases h2 : e.findall "Article" with
    | nil => rfl
    | cons x xs =>
      rw [h2] at ha
      simp at ha
  unfold parse_articles_from_element at hok
  rw [hA] at hok
  simp only [mapExcept, Except.bind, hp, List.isEmpty_nil, Bool.not_false,
    Bool.and_true, if_true] at hok
  rw [hparas] at hok
  simp only [Except.bind, List.nil_append] at hok
  refine ⟨(exceptOkInj hok).symm, rfl, rfl, rfl⟩

/-- C8 witness: a `MainProvision` holding two paragraphs and no article
yields exactly the one synthesized `_main` article with those paragraphs. -/
theorem C8_witness :
    c8Arts = [synthMainArticle "L" c8Paras]
    ∧ (synthMainArticle "L" c8Paras).article_num = 0
    ∧ (synthMainArticle "L" c8Paras).article_id = "L" ++ "_main"
    ∧ (synthMainArticle "L" c8Paras).paragraphs = c8Paras :=
  C8_synthesized_main_article c8Elem "L" c8Arts c8Paras rfl rfl rfl rfl

/-- C9 (amended): the supplementary-provision identifier is
`law_id ++ "_suppl_" ++ type`; when an amending-law number is present and
non-empty it is appended after `"_"` with each SPACE character (`' '`,
wherever it occurs) replaced by an underscore — other whitespace such as a
tab is left unchanged. -/
theorem C9_suppl_id (s : Elem) (law_id : String) (sp : SupplProvision)
    (h : parse_suppl_provision s law_id = .ok sp) :
    sp.suppl_provision_id =
      (match s.getAttr "AmendLawNum" with
       | none => law_id ++ "_suppl_" ++ s.getAttrD "Type" "New"
       | some a =>
         if a = "" then law_id ++ "_suppl_" ++ s.getAttrD "Type" "New"
         else (law_id ++ "_suppl_" ++ s.getAttrD "Type" "New") ++ "_" ++ pyReplaceSpace a) := by
  obtain ⟨arts, ps, ha, hpp, hsp⟩ := parse_suppl_ok_inv s law_id sp h
  subst hsp
  show supplIdOf law_id s = _
  unfold supplIdOf
  cases hattr : s.getAttr "AmendLawNum" with
  | none => rfl
  | some a =>
    by_cases he : a = ""
    · subst he
      rfl
    · have hb : (a == "") = false := beq_eq_false_iff_ne.mpr he
      simp only [hb, Bool.false_eq_true, if_false, if_neg he]

/-- C9 witness: type `"Amend"` with amending-law number `"X Y"` yields
`L_suppl_Amend_X_Y` (the space replaced by an underscore), matching the
claim's own example. -/
theorem C9_witness : c9SP.suppl_provision_id = "L_suppl_Amend_X_Y" :=
  (C9_suppl_id c9Elem "L" c9SP rfl).trans (by decide)

/-- C9 counterexample to the claim as stated: an amending-law number
containing a TAB — internal whitespace — keeps the tab in the identifier;
it is not replaced by an underscore as "internal whitespace replaced by
underscores" asserts. -/
theorem C9_counterexample :
    parse_suppl_provision c9TabElem "L" = .ok c9TabSP
    ∧ c9TabSP.suppl_provision_id = "L_suppl_Amend_X\tY"
    ∧ ("L_suppl_Amend_X\tY" : String) ≠ "L_suppl_Amend_X_Y" :=
  ⟨rfl, rfl, by decide⟩

/-- C10: a paragraph's content is the space-joined text of every sentence
fragment found in its sentence container — `""` when the container is
absent or holds no sentence elements, and the join of the texts when every
sentence carries a non-empty text. -/
theorem C10_paragraph_content :
    (∀ (e : Elem) (aid : String) (p : Paragraph),
        parse_paragraph e aid = .ok p →
        e.find "ParagraphSentence" = none → p.content = "")
    ∧ (∀ (e : Elem) (aid : String) (ps : Elem) (p : Paragraph),
        parse_paragraph e aid = .ok p →
        e.find "ParagraphSentence" = some ps →
        ps.findall "Sentence" = [] → p.content = "")
    ∧ (∀ (e : Elem) (aid : String) (ps : Elem) (p : Paragraph) (ts : List String),
        parse_paragraph e aid = .ok p →
        e.find "ParagraphSentence" = some ps →
        (ps.findall "Sentence").map Elem.text = ts.map some →
        (∀ t ∈ ts, ¬ t = "") →
        p.content = joinWith " " ts) := by
  refine ⟨?_, ?_, ?_⟩
  · intro e aid p h hc
    obtain ⟨n, items, hn, hi, hp⟩ := parse_paragraph_ok_inv e aid p h
    subst hp
    show paragraphContentOf e = ""
    unfold paragraphContentOf
    rw [hc]
  · intro e aid ps p h hc hs
    obtain ⟨n, items, hn, hi, hp⟩ := parse_paragraph_ok_inv e aid p h
    subst hp
    show paragraphContentOf e = ""
    unfold paragraphContentOf
    rw [hc]
    show joinSentences (ps.findall "Sentence") = ""
    rw [hs]
    rfl
  · intro e aid ps p ts h hc hts hne
    obtain ⟨n, items, hn, hi, hp⟩ := parse_paragraph_ok_inv e aid p h
    subst hp
    show paragraphContentOf e = joinWith " " ts
    unfold paragraphContentOf
    rw [hc]
    show joinSentences (ps.findall "Sentence") = joinWith " " ts
    unfold joinSentences
    rw [filterMap_text_of_map_some (ps.findall "Sentence") ts hts,
      filter_nonempty_eq_self ts hne]

/-- C10 witness: a paragraph with two sentence fragments `"First."` and
`"Second."` has content `"First. Second."` (single joining space), and a
paragraph without a sentence container has content `""`. -/
theorem C10_witness :
    c10Para.content = "First. Second." ∧ c10ParaEmpty.content = "" :=
  ⟨(C10_paragraph_content.2.2 c10Elem "A" c10PS c10Para ["First.", "Second."]
      rfl rfl rfl (by decide)).trans (by decide),
   C10_paragraph_content.1 c10EmptyElem "A" c10ParaEmpty rfl rfl⟩
